import Mathlib

/-
Verification of the verse-heap chunk-allocation subsystem and of the FreeBSD
linker job builder of this repository.

The chunk-allocation subsystem is declared in
src/libpas/src/libpas/verse_heap_runtime_config.h; its implementation file is
not part of the source tree, so the operational definitions below are modelled
from the specification's description of the subsystem (each such definition says
so in its doc comment).  The FreeBSD linker job builder is translated from
src/clang/lib/Driver/ToolChains/FreeBSD.cpp, which is present in full.
-/

set_option maxHeartbeats 1000000
set_option linter.unusedVariables false

namespace VerseHeap

/-- Modelled from the spec: the chunk granularity constant
`VERSE_HEAP_CHUNK_SIZE` is "a fixed power-of-two size".  The concrete value is
not fixed by the available material (the defining header is not in the source
tree); we pick 2^16, recording the exponent so that power-of-two-ness is
explicit. -/
def VERSE_HEAP_CHUNK_SIZE_LOG2 : Nat := 16

/-- Modelled from the spec: the fixed chunk granularity, a power of two. -/
def VERSE_HEAP_CHUNK_SIZE : Nat := 2 ^ VERSE_HEAP_CHUNK_SIZE_LOG2

/-- Modelled from the spec: `pas_primordial_page_state` "enumerates the state a
freshly-produced page is in before first touch (never-committed vs
previously-decommitted-and-now-reusable vs already-zeroed)". -/
inductive pas_primordial_page_state where
  | never_committed
  | decommitted_reusable
  | zeroed
  deriving DecidableEq

/-- Modelled from the spec: a free physical extent `{address, size}`. -/
structure Extent where
  address : Nat
  size : Nat
  deriving DecidableEq

/-- Modelled from the spec: the PageProvider capability has "two variants,
global cache and dedicated caged cache" (the source's function-pointer +
opaque-argument idiom, replaced by two concrete variants as §9 directs). -/
inductive PageProvider where
  | global_cache_provider
  | caged_region_provider
  deriving DecidableEq

/-- Modelled from the spec: the OS as a supplier of physical backing.
`next_chunk_index` generates fresh chunk-aligned virtual addresses; `budget` is
the physical memory (in bytes) the OS can still commit.  A commit that exceeds
the budget fails: that is the model's resource exhaustion. -/
structure OSMemory where
  next_chunk_index : Nat
  budget : Nat
  deriving DecidableEq

/-- Modelled from the spec: committing `size` bytes of physical memory; fails
(resource exhaustion) when the OS cannot supply the backing. -/
def OSMemory.commit (os : OSMemory) (size : Nat) : Option OSMemory :=
  if size ≤ os.budget then some { os with budget := os.budget - size } else none

/-- Modelled from the spec: reserving and committing a fresh chunk-aligned
virtual range backed by new physical memory (the sharing cache's miss path). -/
def OSMemory.alloc (os : OSMemory) (size : Nat) : Option (Nat × OSMemory) :=
  match os.commit size with
  | some os2 =>
    some (os.next_chunk_index * VERSE_HEAP_CHUNK_SIZE,
          { os2 with next_chunk_index := os.next_chunk_index + size / VERSE_HEAP_CHUNK_SIZE })
  | none => none

/-- Modelled from the spec: best-fit comparison, "best-fit by size with address
tie-break". -/
def betterFit (candidate best : Extent) : Bool :=
  candidate.size < best.size ||
    (candidate.size == best.size && candidate.address < best.address)

/-- Modelled from the spec: best-fit search over a free-extent collection:
among the extents large enough for `size`, the one of least size, ties broken
by least address. -/
def findBestFit (size : Nat) : List Extent → Option Extent
  | [] => none
  | e :: rest =>
    match findBestFit size rest with
    | none => if size ≤ e.size then some e else none
    | some b => if size ≤ e.size && betterFit e b then some e else some b

/-- Modelled from the spec: remove one occurrence of an extent from a free
collection. -/
def removeExtent (e : Extent) : List Extent → List Extent
  | [] => []
  | x :: rest => if x = e then rest else x :: removeExtent e rest

/-- Modelled from the spec: take `size` bytes from the front of a best-fit
extent, returning the remainder (if any) to the free collection. -/
def splitFit (e : Extent) (size : Nat) (rest : List Extent) : List Extent :=
  if size < e.size then ⟨e.address + size, e.size - size⟩ :: rest else rest

/-- Modelled from the spec: `pas_large_heap_physical_page_sharing_cache`, "a
cache of free physical-page extents that can be remapped to satisfy new
requests". -/
structure pas_large_heap_physical_page_sharing_cache where
  free_extents : List Extent
  deriving DecidableEq

/-- Modelled from the spec §4.3: `acquire(size)` searches the free-extent
collection best-fit; the extents it holds are already physically backed, so a
hit consumes no new OS budget; "on miss, request new physical backing from the
OS and return it directly without inserting into the cache".  `none` means the
OS could not supply backing memory. -/
def pas_large_heap_physical_page_sharing_cache.try_allocate
    (cache : pas_large_heap_physical_page_sharing_cache) (os : OSMemory) (size : Nat) :
    Option (Extent × pas_large_heap_physical_page_sharing_cache × OSMemory) :=
  match findBestFit size cache.free_extents with
  | some e =>
    some (⟨e.address, size⟩, ⟨splitFit e size (removeExtent e cache.free_extents)⟩, os)
  | none =>
    match os.alloc size with
    | some (addr, os2) => some (⟨addr, size⟩, cache, os2)
    | none => none

/-- Modelled from the spec: `pas_reserve_commit_cache_large_free_heap`, the
address-ordered collection of decommitted-but-reserved sub-ranges within one
caged heap's reserved span. -/
structure pas_reserve_commit_cache_large_free_heap where
  free_ranges : List Extent
  deriving DecidableEq

/-- Modelled from the spec §4.4: allocation within the reserved span commits
(makes physical) a best-fit sub-range, removing it from the free collection.
"Exhaustion (the reserved span itself is fully committed and no fit exists) is
a hard failure; this cache never grows its reservation post-construction"; an
OS commit failure is likewise a hard failure. -/
def pas_reserve_commit_cache_large_free_heap.try_allocate
    (cache : pas_reserve_commit_cache_large_free_heap) (os : OSMemory) (size : Nat) :
    Option (Extent × pas_reserve_commit_cache_large_free_heap × OSMemory) :=
  match findBestFit size cache.free_ranges with
  | some r =>
    match os.commit size with
    | some os2 =>
      some (⟨r.address, size⟩, ⟨splitFit r size (removeExtent r cache.free_ranges)⟩, os2)
    | none => none
  | none => none

/-- Modelled from the spec: `verse_heap_object_set_set`, "the live set of
allocated chunks/objects for enumeration by an external collector". -/
structure verse_heap_object_set_set where
  ranges : List Extent
  deriving DecidableEq

/-- Modelled from the spec: registration of a freshly allocated chunk. -/
def verse_heap_object_set_set.insert (s : verse_heap_object_set_set) (e : Extent) :
    verse_heap_object_set_set :=
  ⟨e :: s.ranges⟩

/-- The aggregate from src/libpas/src/libpas/verse_heap_runtime_config.h
(lines 45-66): heap_base/heap_size/heap_alignment, the page provider, the
heap's private large (physical page sharing) and small (reserve-commit) caches,
and the object-set set.  The provider's opaque argument pointer is replaced by
the two-variant `PageProvider`, as the spec's §9 directs. -/
structure verse_heap_runtime_config where
  heap_base : Nat
  heap_size : Nat
  heap_alignment : Nat
  page_provider : PageProvider
  large_cache : pas_large_heap_physical_page_sharing_cache
  small_cache : pas_reserve_commit_cache_large_free_heap
  object_sets : verse_heap_object_set_set
  deriving DecidableEq

/-- Modelled from the spec: construction of a `verse_heap_runtime_config`
checks the invariant that `heap_base`, `heap_size`, `heap_alignment` are either
all zero or all nonzero; "mixed zero/nonzero is an invariant violation",
reported as a construction fault (`none`). -/
def verse_heap_runtime_config_create (heap_base heap_size heap_alignment : Nat)
    (page_provider : PageProvider)
    (large_cache : pas_large_heap_physical_page_sharing_cache)
    (small_cache : pas_reserve_commit_cache_large_free_heap) :
    Option verse_heap_runtime_config :=
  if (heap_base ≠ 0 ∧ heap_size ≠ 0 ∧ heap_alignment ≠ 0) ∨
     (heap_base = 0 ∧ heap_size = 0 ∧ heap_alignment = 0) then
    some { heap_base := heap_base, heap_size := heap_size,
           heap_alignment := heap_alignment, page_provider := page_provider,
           large_cache := large_cache, small_cache := small_cache,
           object_sets := ⟨[]⟩ }
  else none

/-- Modelled from the spec: `AllocationResult{ok, address, size}` is "the only
value type crossing back out". -/
structure pas_allocation_result where
  ok : Bool
  address : Nat
  size : Nat
  deriving DecidableEq

/-- Modelled from the spec: the failed allocation result (resource
exhaustion). -/
def failedAllocation : pas_allocation_result := ⟨false, 0, 0⟩

/-- Modelled from the spec: a `pas_physical_memory_transaction` "brackets a
sequence of commit/decommit attempts ... provides retry-on-contention
semantics".  The contention the transaction will encounter is modelled as a
finite trace of booleans: `true` means another in-flight transaction holds an
overlapping range and the whole attempt must be released and retried; the spec
notes contention is transient, which the finiteness of the trace reflects. -/
structure pas_physical_memory_transaction where
  contention : List Bool
  deriving DecidableEq

/-- The whole mutable state an allocation touches: the one config, the
process-wide global sharing cache, and the OS. -/
structure VerseHeapState where
  config : verse_heap_runtime_config
  global_cache : pas_large_heap_physical_page_sharing_cache
  os : OSMemory
  deriving DecidableEq

/-- Outcome of one call to the allocation entry point: a programming-error
fault (immediate abnormal termination, not a recoverable result), or a
completed call carrying the `AllocationResult` and the post-state. -/
inductive AllocOutcome where
  | fault
  | done (result : pas_allocation_result) (state : VerseHeapState)
  deriving DecidableEq

/-- Modelled from the spec: the size cutoff of the caged path — sizes up to
this are served by the reserve/commit cache; "for sizes exceeding what the
reserve/commit path economically serves ... consult the heap's own
PhysicalPageSharingCache". -/
def VERSE_HEAP_RESERVE_COMMIT_MAX_SIZE : Nat := 16 * VERSE_HEAP_CHUNK_SIZE

/-- Modelled from the spec §4.1: one uncontended attempt of
`verse_heap_runtime_config_allocate_chunks`.  Size must be a positive multiple
of `VERSE_HEAP_CHUNK_SIZE` (violation is a programming-error fault).  If
`heap_base ≠ 0` (caged) the heap's own caches serve the request — the
reserve/commit cache for sizes it serves, the heap's own sharing cache beyond
that; if `heap_base = 0` the request is delegated to the process-wide sharing
cache.  On success the chunk is registered into the config's object sets; on
exhaustion the failed result is returned with the state untouched. -/
def verse_heap_runtime_config_allocate_chunks_attempt
    (s : VerseHeapState) (size : Nat) (desired_state : pas_primordial_page_state) :
    AllocOutcome :=
  if size = 0 ∨ ¬ (size % VERSE_HEAP_CHUNK_SIZE = 0) then .fault
  else if s.config.heap_base ≠ 0 then
    if size ≤ VERSE_HEAP_RESERVE_COMMIT_MAX_SIZE then
      match s.config.small_cache.try_allocate s.os size with
      | some (e, sc, os2) =>
        .done ⟨true, e.address, e.size⟩
          { s with
            config := { s.config with
                        small_cache := sc,
                        object_sets := s.config.object_sets.insert e },
            os := os2 }
      | none => .done failedAllocation s
    else
      match s.config.large_cache.try_allocate s.os size with
      | some (e, lc, os2) =>
        .done ⟨true, e.address, e.size⟩
          { s with
            config := { s.config with
                        large_cache := lc,
                        object_sets := s.config.object_sets.insert e },
            os := os2 }
      | none => .done failedAllocation s
  else
    match s.global_cache.try_allocate s.os size with
    | some (e, gc, os2) =>
      .done ⟨true, e.address, e.size⟩
        { s with
          global_cache := gc,
          config := { s.config with object_sets := s.config.object_sets.insert e },
          os := os2 }
    | none => .done failedAllocation s

/-- Modelled from the spec §4.2: the transaction retry loop.  On contention the
attempt releases any partial state (the state reverts to `s`) and the whole
operation is re-attempted; when no contention remains the attempt runs to
completion. -/
def allocate_chunks_loop (s : VerseHeapState) (size : Nat)
    (desired_state : pas_primordial_page_state) : List Bool → AllocOutcome
  | [] => verse_heap_runtime_config_allocate_chunks_attempt s size desired_state
  | c :: rest =>
    if c then allocate_chunks_loop s size desired_state rest
    else verse_heap_runtime_config_allocate_chunks_attempt s size desired_state

/-- Modelled from the spec: the entry point declared at
src/libpas/src/libpas/verse_heap_runtime_config.h lines 72-75, wrapped in the
transaction's contention-retry protocol. -/
def verse_heap_runtime_config_allocate_chunks (s : VerseHeapState) (size : Nat)
    (transaction : pas_physical_memory_transaction)
    (desired_state : pas_primordial_page_state) : AllocOutcome :=
  allocate_chunks_loop s size desired_state transaction.contention

/-- Resource exhaustion at a given state and request size: on the caged
reserve/commit path, either the reserved span has no fit (it never grows) or
the OS cannot commit the backing; on the sharing-cache paths, the cache has no
fit and the OS cannot supply new backing. -/
def resource_exhausted (s : VerseHeapState) (size : Nat) : Prop :=
  (s.config.heap_base ≠ 0 ∧ size ≤ VERSE_HEAP_RESERVE_COMMIT_MAX_SIZE ∧
    (findBestFit size s.config.small_cache.free_ranges = none ∨ s.os.budget < size)) ∨
  (s.config.heap_base ≠ 0 ∧ VERSE_HEAP_RESERVE_COMMIT_MAX_SIZE < size ∧
    findBestFit size s.config.large_cache.free_extents = none ∧ s.os.budget < size) ∨
  (s.config.heap_base = 0 ∧
    findBestFit size s.global_cache.free_extents = none ∧ s.os.budget < size)

instance (s : VerseHeapState) (size : Nat) : Decidable (resource_exhausted s size) := by
  unfold resource_exhausted
  infer_instance

/-- An extent whose address and size are both chunk-granularity multiples. -/
def extent_aligned (e : Extent) : Bool :=
  e.address % VERSE_HEAP_CHUNK_SIZE == 0 && e.size % VERSE_HEAP_CHUNK_SIZE == 0

/-- All free extents of every cache in the state are chunk-aligned (the
subsystem's wire contract: everything crossing this interface is a multiple of
the granularity). -/
def state_aligned (s : VerseHeapState) : Bool :=
  s.config.small_cache.free_ranges.all extent_aligned &&
  s.config.large_cache.free_extents.all extent_aligned &&
  s.global_cache.free_extents.all extent_aligned

/-- Concrete caged heap of the spec's Scenario B: a heap caged to a reserved
span of four chunks, nothing allocated yet, ample OS budget. -/
def scenarioCagedConfig : verse_heap_runtime_config :=
  { heap_base := VERSE_HEAP_CHUNK_SIZE
    heap_size := 4 * VERSE_HEAP_CHUNK_SIZE
    heap_alignment := VERSE_HEAP_CHUNK_SIZE
    page_provider := .caged_region_provider
    large_cache := ⟨[]⟩
    small_cache := ⟨[⟨VERSE_HEAP_CHUNK_SIZE, 4 * VERSE_HEAP_CHUNK_SIZE⟩]⟩
    object_sets := ⟨[]⟩ }

/-- Scenario B's initial state. -/
def scenarioCagedState : VerseHeapState :=
  { config := scenarioCagedConfig
    global_cache := ⟨[]⟩
    os := ⟨0, 100 * VERSE_HEAP_CHUNK_SIZE⟩ }

/-- Scenario B's state after one chunk allocation. -/
def scenarioCagedState1 : VerseHeapState :=
  { config := { scenarioCagedConfig with
                small_cache := ⟨[⟨2 * VERSE_HEAP_CHUNK_SIZE, 3 * VERSE_HEAP_CHUNK_SIZE⟩]⟩
                object_sets := ⟨[⟨VERSE_HEAP_CHUNK_SIZE, VERSE_HEAP_CHUNK_SIZE⟩]⟩ }
    global_cache := ⟨[]⟩
    os := ⟨0, 99 * VERSE_HEAP_CHUNK_SIZE⟩ }

/-- Scenario B's state after four chunk allocations: the reserved span is fully
committed. -/
def scenarioCagedState4 : VerseHeapState :=
  { config := { scenarioCagedConfig with
                small_cache := ⟨[]⟩
                object_sets :=
                  ⟨[⟨4 * VERSE_HEAP_CHUNK_SIZE, VERSE_HEAP_CHUNK_SIZE⟩,
                    ⟨3 * VERSE_HEAP_CHUNK_SIZE, VERSE_HEAP_CHUNK_SIZE⟩,
                    ⟨2 * VERSE_HEAP_CHUNK_SIZE, VERSE_HEAP_CHUNK_SIZE⟩,
                    ⟨VERSE_HEAP_CHUNK_SIZE, VERSE_HEAP_CHUNK_SIZE⟩]⟩ }
    global_cache := ⟨[]⟩
    os := ⟨0, 96 * VERSE_HEAP_CHUNK_SIZE⟩ }

/-- One uncontended single-chunk allocation step, counting successes — used to
run Scenario B's four successful allocations concretely. -/
def allocChunkStep (p : VerseHeapState × Nat) : VerseHeapState × Nat :=
  match verse_heap_runtime_config_allocate_chunks_attempt p.1 VERSE_HEAP_CHUNK_SIZE .zeroed with
  | .done r s' => (s', if r.ok then p.2 + 1 else p.2)
  | .fault => p

end VerseHeap

namespace FreeBSDDriver

/-- Target architectures distinguished by freebsd::Linker::ConstructJob
(src/clang/lib/Driver/ToolChains/FreeBSD.cpp). -/
inductive Arch where
  | x86
  | x86_64
  | ppc
  | ppcle
  | mips
  | mipsel
  | mips64
  | mips64el
  | riscv32
  | riscv64
  | arm
  | sparc
  | aarch64
  | other
  deriving DecidableEq

/-- Triple.isMIPS(): the four MIPS architectures. -/
def Arch.isMIPS : Arch → Bool
  | .mips | .mipsel | .mips64 | .mips64el => true
  | _ => false

/-- Triple.isX86(): 32- or 64-bit x86. -/
def Arch.isX86 : Arch → Bool
  | .x86 | .x86_64 => true
  | _ => false

/-- The command-line flags ConstructJob inspects, plus the rendered values of
the option groups it forwards verbatim (`AddAllArgs`). -/
structure LinkerArgs where
  shared : Bool
  pie : Bool
  static : Bool
  rdynamic : Bool
  r : Bool
  pg : Bool
  nostdlib : Bool
  nostartfiles : Bool
  nodefaultlibs : Bool
  pthread : Bool
  mipsN32 : Bool
  gArg : Option String
  lArgs : List String
  tGroupArgs : List String
  sArgs : List String
  tArgs : List String
  zFlagArgs : List String
  rArgs : List String

/-- The toolchain and driver facts ConstructJob consults: the FilBSD/pizfix
mode computed in the FreeBSD constructor, the target arch, `isPIEDefault`,
sysroot, installed dir, GetFilePath, the OS major version, LTO mode, whether
the driver is in C++ mode, and ShouldLinkCXXStdlib. -/
structure ToolChainInfo where
  isFilBSD : Bool
  arch : Arch
  pieDefault : Bool
  sysroot : String
  installedDir : String
  filePath : String → String
  osMajorVersion : Nat
  usingLTO : Bool
  isCXX : Bool
  shouldLinkCXXStdlib : Bool

/-- Argument fragments contributed by helpers external to FreeBSD.cpp
(addLTOOptions, addSanitizerRuntimes, addXRayRuntime,
addLinkerCompressDebugSectionsOption, AddFilePathLibArgs, AddCXXStdlibLibArgs,
addOpenMPRuntime, linkSanitizerRuntimeDeps, linkXRayRuntimeDeps,
addProfileRTLibs), taken as parameters of the model. -/
structure ExternalArgs where
  ltoArgs : List String
  needsSanitizerDeps : Bool
  sanitizerRuntimeArgs : List String
  needsXRayDeps : Bool
  xrayRuntimeArgs : List String
  compressDebugArgs : List String
  filePathLibArgs : List String
  cxxStdlibArgs : List String
  openMPArgs : List String
  sanitizerDepsArgs : List String
  xrayDepsArgs : List String
  profileRTArgs : List String

/-- llvm::sys::path::append on the model's flat strings. -/
def pathAppend (p : String) (parts : List String) : String :=
  parts.foldl (fun acc x => acc ++ "/" ++ x) p

/-- GetLegacyFilePath (FreeBSD.cpp lines 242-246): on FilBSD, /usr/lib/<name>;
otherwise ToolChain.GetFilePath(<name>). -/
def getLegacyFilePath (tc : ToolChainInfo) (name : String) : String :=
  if tc.isFilBSD then "/usr/lib/" ++ name else tc.filePath name

/-- IsPIE (lines 138-140): no -shared, and -pie or the toolchain's PIE
default. -/
def computeIsPIE (tc : ToolChainInfo) (args : LinkerArgs) : Bool :=
  !args.shared && (args.pie || tc.pieDefault)

/-- The explicit linker-emulation arguments (lines 177-225). -/
def emulationArgs (tc : ToolChainInfo) (args : LinkerArgs) : List String :=
  match tc.arch with
  | .x86 => ["-m", "elf_i386_fbsd"]
  | .ppc => ["-m", "elf32ppc_fbsd"]
  | .ppcle => ["-m", "elf32lppc"]
  | .mips => ["-m", "elf32btsmip_fbsd"]
  | .mipsel => ["-m", "elf32ltsmip_fbsd"]
  | .mips64 =>
    if args.mipsN32 then ["-m", "elf32btsmipn32_fbsd"] else ["-m", "elf64btsmip_fbsd"]
  | .mips64el =>
    if args.mipsN32 then ["-m", "elf32ltsmipn32_fbsd"] else ["-m", "elf64ltsmip_fbsd"]
  | .riscv32 => ["-m", "elf32lriscv", "-X"]
  | .riscv64 => ["-m", "elf64lriscv", "-X"]
  | _ => []

/-- The crt1 startup object (lines 250-258): none for -shared; gcrt1.o under
-pg; Scrt1.o for PIE; otherwise crt1.o. -/
def crt1File (args : LinkerArgs) (isPIE : Bool) : Option String :=
  if args.shared then none
  else if args.pg then some "gcrt1.o"
  else if isPIE then some "Scrt1.o"
  else some "crt1.o"

/-- The crtbegin variant (lines 264-270): crtbeginT.o for -static, crtbeginS.o
for -shared or PIE, else crtbegin.o. -/
def crtbeginFile (args : LinkerArgs) (isPIE : Bool) : String :=
  if args.static then "crtbeginT.o"
  else if args.shared || isPIE then "crtbeginS.o"
  else "crtbegin.o"

/-- The crtend variant (lines 434-437): crtendS.o for -shared or PIE, else
crtend.o. -/
def crtendFile (args : LinkerArgs) (isPIE : Bool) : String :=
  if args.shared || isPIE then "crtendS.o" else "crtend.o"

/-- The startup-object block (lines 248-273).  The guard in the source is
`(true) || !Args.hasArg(nostdlib, nostartfiles, r)`, i.e. short-circuited to
always taken. -/
def startfileArgs (tc : ToolChainInfo) (args : LinkerArgs) (isPIE : Bool) : List String :=
  if true || !(args.nostdlib || args.nostartfiles || args.r) then
    (match crt1File args isPIE with
     | some n => [getLegacyFilePath tc n]
     | none => []) ++
    [getLegacyFilePath tc "crti.o", getLegacyFilePath tc (crtbeginFile args isPIE)]
  else []

/-- The end-object block (lines 432-439), with the same short-circuited
guard. -/
def endfileArgs (tc : ToolChainInfo) (args : LinkerArgs) (isPIE : Bool) : List String :=
  if true || !(args.nostdlib || args.nostartfiles || args.r) then
    [getLegacyFilePath tc (crtendFile args isPIE), getLegacyFilePath tc "crtn.o"]
  else []

/-- Everything pushed before the startup objects (lines 151-240): sysroot,
-pie, --eh-frame-hdr, the static/dynamic block, the emulation, -G for MIPS, and
-o. -/
def preArgs (tc : ToolChainInfo) (args : LinkerArgs) (isPIE : Bool)
    (output : Option String) : List String :=
  (if tc.sysroot ≠ "" then ["--sysroot=" ++ tc.sysroot] else []) ++
  (if isPIE then ["-pie"] else []) ++
  ["--eh-frame-hdr"] ++
  (if args.static then ["-Bstatic"]
   else
     (if args.rdynamic then ["-export-dynamic"] else []) ++
     (if args.shared then ["-Bshareable"]
      else if !args.r then ["-dynamic-linker", "/libexec/ld-elf.so.1"] else []) ++
     (if tc.arch == .arm || tc.arch == .sparc || tc.arch.isX86 then
        ["--hash-style=both"] else []) ++
     ["--enable-new-dtags"]) ++
  emulationArgs tc args ++
  (match args.gArg with
   | some v => if tc.arch.isMIPS then ["-G" ++ v] else []
   | none => []) ++
  (match output with
   | some f => ["-o", f]
   | none => [])

/-- Everything between the startup objects and the linker inputs (lines
275-301): -L args, the pizfix -L and -rpath pair when not FilBSD, file-path lib
args, the forwarded option groups, LTO options, sanitizer/XRay runtimes and the
compress-debug-sections option. -/
def midArgs (tc : ToolChainInfo) (args : LinkerArgs) (ext : ExternalArgs) : List String :=
  args.lArgs ++
  (if !tc.isFilBSD then
     ["-L" ++ pathAppend tc.installedDir ["..", "..", "pizfix", "lib"],
      "-rpath", pathAppend tc.installedDir ["..", "..", "pizfix", "lib"]]
   else []) ++
  ext.filePathLibArgs ++
  args.tGroupArgs ++ args.sArgs ++ args.tArgs ++ args.zFlagArgs ++ args.rArgs ++
  (if tc.usingLTO then ext.ltoArgs else []) ++
  ext.sanitizerRuntimeArgs ++ ext.xrayRuntimeArgs ++ ext.compressDebugArgs

/-- The library block after the linker inputs (lines 304-430).  Three branches
as in the source: the FilBSD branch; the `(true)` branch (always taken
otherwise); and the original upstream FreeBSD branch, which the short-circuit
makes unreachable but which is translated nonetheless. -/
def libArgs (tc : ToolChainInfo) (args : LinkerArgs) (ext : ExternalArgs) : List String :=
  if tc.isFilBSD then
    ["/usr/lib/libgcc.a", "/usr/lib/libc.so",
     pathAppend tc.installedDir ["..", "..", "filbsdrt", "lib", "libpizlo.so"]] ++
    (if !(args.nostdlib || args.nodefaultlibs || args.r) then
       (if tc.isCXX then ["-lm"] else []) ++
       ["-lc"] ++
       (if args.pthread then ["-lpthread"] else []) ++
       (if !args.shared then
          [pathAppend tc.installedDir ["..", "..", "filbsdrt", "lib", "filc_crt.o"]]
        else [])
     else
       (if !args.shared then
          [pathAppend tc.installedDir ["..", "..", "filbsdrt", "lib", "filc_mincrt.o"]]
        else [])) ++
    (if tc.shouldLinkCXXStdlib then ext.cxxStdlibArgs else [])
  else if true then
    ["-lgcc"] ++
    (if tc.isCXX then ["/usr/lib/libm.so"] else []) ++
    ["/usr/lib/libc.so", "-lpizlo"] ++
    (if !(args.nostdlib || args.nodefaultlibs || args.r) then
       ["-lc"] ++
       (if !args.shared then
          [pathAppend tc.installedDir ["..", "..", "pizfix", "lib", "filc_crt.o"]]
        else [])
     else
       (if !args.shared then
          [pathAppend tc.installedDir ["..", "..", "pizfix", "lib", "filc_mincrt.o"]]
        else [])) ++
    (if tc.shouldLinkCXXStdlib then ext.cxxStdlibArgs else [])
  else
    (if !(args.nostdlib || args.nodefaultlibs || args.r) then
       let profiling := args.pg && tc.osMajorVersion ≠ 0 && tc.osMajorVersion < 14
       ext.openMPArgs ++
       (if tc.isCXX then
          (if tc.shouldLinkCXXStdlib then ext.cxxStdlibArgs else []) ++
          (if profiling then ["-lm_p"] else ["-lm"])
        else []) ++
       (if ext.needsSanitizerDeps then ext.sanitizerDepsArgs else []) ++
       (if ext.needsXRayDeps then ext.xrayDepsArgs else []) ++
       (if profiling then ["-lgcc_p"] else ["-lgcc"]) ++
       (if args.static then ["-lgcc_eh"]
        else if profiling then ["-lgcc_eh_p"]
        else ["--as-needed", "-lgcc_s", "--no-as-needed"]) ++
       (if args.pthread then
          (if profiling then ["-lpthread_p"] else ["-lpthread"])
        else []) ++
       (if profiling then
          (if args.shared then ["-lc"] else ["-lc_p"]) ++ ["-lgcc_p"]
        else ["-lc", "-lgcc"]) ++
       (if args.static then ["-lgcc_eh"]
        else if profiling then ["-lgcc_eh_p"]
        else ["--as-needed", "-lgcc_s", "--no-as-needed"])
     else [])

/-- freebsd::Linker::ConstructJob (FreeBSD.cpp lines 129-447): the full
command-argument list handed to the linker, in source order: the leading args,
the startup objects, the middle block, the linker inputs, the library block,
the end objects, and the profile runtime libs. -/
def linkerConstructJob (tc : ToolChainInfo) (args : LinkerArgs)
    (output : Option String) (inputs : List String) (ext : ExternalArgs) :
    List String :=
  preArgs tc args (computeIsPIE tc args) output ++
  startfileArgs tc args (computeIsPIE tc args) ++
  midArgs tc args ext ++
  inputs ++
  libArgs tc args ext ++
  endfileArgs tc args (computeIsPIE tc args) ++
  ext.profileRTArgs

/-- The crt1 variant chosen for a non-shared link: gcrt1.o under -pg, Scrt1.o
for PIE, crt1.o otherwise (the value `crt1File` wraps in `some` when -shared is
absent). -/
def crt1Choice (args : LinkerArgs) (isPIE : Bool) : String :=
  if args.pg then "gcrt1.o" else if isPIE then "Scrt1.o" else "crt1.o"

/-- A concrete FilBSD toolchain used to instantiate the linker theorems. -/
def tcSample : ToolChainInfo :=
  { isFilBSD := true
    arch := .x86_64
    pieDefault := false
    sysroot := ""
    installedDir := "/opt/llvm/bin"
    filePath := fun n => "/usr/lib/" ++ n
    osMajorVersion := 14
    usingLTO := false
    isCXX := false
    shouldLinkCXXStdlib := false }

/-- A concrete argument list that sets -nostdlib, -nostartfiles and -r but not
-shared. -/
def argsSample : LinkerArgs :=
  { shared := false
    pie := false
    static := false
    rdynamic := false
    r := true
    pg := false
    nostdlib := true
    nostartfiles := true
    nodefaultlibs := false
    pthread := false
    mipsN32 := false
    gArg := none
    lArgs := []
    tGroupArgs := []
    sArgs := []
    tArgs := []
    zFlagArgs := []
    rArgs := ["-r"] }

/-- Empty external contributions for the concrete instantiation. -/
def extSample : ExternalArgs :=
  { ltoArgs := []
    needsSanitizerDeps := false
    sanitizerRuntimeArgs := []
    needsXRayDeps := false
    xrayRuntimeArgs := []
    compressDebugArgs := []
    filePathLibArgs := []
    cxxStdlibArgs := []
    openMPArgs := []
    sanitizerDepsArgs := []
    xrayDepsArgs := []
    profileRTArgs := [] }

end FreeBSDDriver

namespace VerseHeap

theorem allocate_chunks_loop_eq_attempt (s : VerseHeapState) (size : Nat)
    (ds : pas_primordial_page_state) (trace : List Bool) :
    allocate_chunks_loop s size ds trace =
      verse_heap_runtime_config_allocate_chunks_attempt s size ds := by
  induction trace with
  | nil => rfl
  | cons c rest ih => cases c <;> simp [allocate_chunks_loop, ih]

theorem allocate_chunks_eq_attempt (s : VerseHeapState) (size : Nat)
    (txn : pas_physical_memory_transaction) (ds : pas_primordial_page_state) :
    verse_heap_runtime_config_allocate_chunks s size txn ds =
      verse_heap_runtime_config_allocate_chunks_attempt s size ds :=
  allocate_chunks_loop_eq_attempt s size ds txn.contention

theorem findBestFit_mem {size : Nat} :
    ∀ {l : List Extent} {e : Extent}, findBestFit size l = some e → e ∈ l := by
  intro l
  induction l with
  | nil => intro e h; simp [findBestFit] at h
  | cons x rest ih =>
    intro e h
    simp only [findBestFit] at h
    split at h
    · split at h
      · injection h with h
        exact h ▸ List.mem_cons_self x rest
      · exact absurd h (by simp)
    · rename_i b heq
      split at h
      · injection h with h
        exact h ▸ List.mem_cons_self x rest
      · injection h with h
        exact h ▸ List.mem_cons_of_mem x (ih heq)

theorem OSMemory.alloc_addr_aligned {os : OSMemory} {size addr : Nat} {os2 : OSMemory}
    (h : os.alloc size = some (addr, os2)) :
    addr % VERSE_HEAP_CHUNK_SIZE = 0 := by
  unfold OSMemory.alloc OSMemory.commit at h
  by_cases hb : size ≤ os.budget
  · simp only [if_pos hb] at h
    injection h with h
    injection h with h1 h2
    exact h1 ▸ Nat.mul_mod_left _ _
  · simp [if_neg hb] at h

theorem extent_aligned_split {e : Extent} (h : extent_aligned e = true) :
    e.address % VERSE_HEAP_CHUNK_SIZE = 0 ∧ e.size % VERSE_HEAP_CHUNK_SIZE = 0 := by
  simp only [extent_aligned, Bool.and_eq_true, beq_iff_eq] at h
  exact h

theorem small_try_allocate_eq_none_iff
    (cache : pas_reserve_commit_cache_large_free_heap) (os : OSMemory) (size : Nat) :
    cache.try_allocate os size = none ↔
      (findBestFit size cache.free_ranges = none ∨ os.budget < size) := by
  unfold pas_reserve_commit_cache_large_free_heap.try_allocate OSMemory.commit
  cases hb : findBestFit size cache.free_ranges with
  | none => simp
  | some r =>
    by_cases hbud : size ≤ os.budget
    · simp only [if_pos hbud]
      simp
      omega
    · simp only [if_neg hbud]
      simp
      omega

theorem large_try_allocate_eq_none_iff
    (cache : pas_large_heap_physical_page_sharing_cache) (os : OSMemory) (size : Nat) :
    cache.try_allocate os size = none ↔
      (findBestFit size cache.free_extents = none ∧ os.budget < size) := by
  unfold pas_large_heap_physical_page_sharing_cache.try_allocate OSMemory.alloc OSMemory.commit
  cases hb : findBestFit size cache.free_extents with
  | some e => simp
  | none =>
    by_cases hbud : size ≤ os.budget
    · simp only [if_pos hbud]
      simp
      omega
    · simp only [if_neg hbud]
      simp
      omega

theorem small_try_allocate_some_shape
    {cache : pas_reserve_commit_cache_large_free_heap} {os : OSMemory} {size : Nat}
    {e : Extent} {c' : pas_reserve_commit_cache_large_free_heap} {os' : OSMemory}
    (h : cache.try_allocate os size = some (e, c', os')) :
    ∃ r, findBestFit size cache.free_ranges = some r ∧ e = ⟨r.address, size⟩ := by
  unfold pas_reserve_commit_cache_large_free_heap.try_allocate at h
  cases hb : findBestFit size cache.free_ranges with
  | none => rw [hb] at h; exact absurd h (by simp)
  | some r =>
    rw [hb] at h
    cases hc : os.commit size with
    | none => rw [hc] at h; exact absurd h (by simp)
    | some os2 =>
      rw [hc] at h
      injection h with h
      injection h with h1 h2
      exact ⟨r, rfl, h1.symm⟩

theorem large_try_allocate_some_addr
    {cache : pas_large_heap_physical_page_sharing_cache} {os : OSMemory} {size : Nat}
    {e : Extent} {c' : pas_large_heap_physical_page_sharing_cache} {os' : OSMemory}
    (hwf : cache.free_extents.all extent_aligned = true)
    (hsz : size % VERSE_HEAP_CHUNK_SIZE = 0)
    (h : cache.try_allocate os size = some (e, c', os')) :
    e.address % VERSE_HEAP_CHUNK_SIZE = 0 ∧ e.size % VERSE_HEAP_CHUNK_SIZE = 0 := by
  unfold pas_large_heap_physical_page_sharing_cache.try_allocate at h
  cases hb : findBestFit size cache.free_extents with
  | some b =>
    rw [hb] at h
    injection h with h
    injection h with h1 h2
    have hmem := findBestFit_mem hb
    have hal := extent_aligned_split (List.all_eq_true.mp hwf b hmem)
    subst h1
    exact ⟨hal.1, hsz⟩
  | none =>
    rw [hb] at h
    cases ha : os.alloc size with
    | none => rw [ha] at h; exact absurd h (by simp)
    | some v =>
      obtain ⟨addr, os2⟩ := v
      rw [ha] at h
      injection h with h
      injection h with h1 h2
      have := OSMemory.alloc_addr_aligned ha
      subst h1
      exact ⟨this, hsz⟩

end VerseHeap

/-- C2: every constructed `verse_heap_runtime_config` has `heap_base`,
`heap_size`, `heap_alignment` either all zero or all nonzero, and constructing
a mixed zero/nonzero combination is an invariant-violation fault (the
constructor yields `none`). -/
theorem VerseHeap.runtime_config_fields_all_zero_or_all_nonzero
    (b sz al : Nat) (pp : VerseHeap.PageProvider)
    (lc : VerseHeap.pas_large_heap_physical_page_sharing_cache)
    (sc : VerseHeap.pas_reserve_commit_cache_large_free_heap) :
    (∀ cfg, VerseHeap.verse_heap_runtime_config_create b sz al pp lc sc = some cfg →
      (cfg.heap_base = 0 ∧ cfg.heap_size = 0 ∧ cfg.heap_alignment = 0) ∨
      (cfg.heap_base ≠ 0 ∧ cfg.heap_size ≠ 0 ∧ cfg.heap_alignment ≠ 0)) ∧
    (¬ ((b ≠ 0 ∧ sz ≠ 0 ∧ al ≠ 0) ∨ (b = 0 ∧ sz = 0 ∧ al = 0)) →
      VerseHeap.verse_heap_runtime_config_create b sz al pp lc sc = none) := by
  constructor
  · intro cfg hcfg
    unfold VerseHeap.verse_heap_runtime_config_create at hcfg
    by_cases hc : (b ≠ 0 ∧ sz ≠ 0 ∧ al ≠ 0) ∨ (b = 0 ∧ sz = 0 ∧ al = 0)
    · rw [if_pos hc] at hcfg
      injection hcfg with hcfg
      subst hcfg
      rcases hc with hca | hcz
      · exact Or.inr hca
      · exact Or.inl hcz
    · rw [if_neg hc] at hcfg
      exact Option.noConfusion hcfg
  · intro hmix
    unfold VerseHeap.verse_heap_runtime_config_create
    rw [if_neg hmix]

/-- C2 witness: the spec's Scenario C — `heap_base = 0, heap_size = 100` is
mixed and is rejected at construction. -/
theorem VerseHeap.runtime_config_mixed_rejected_instance :
    ¬ (((0 : Nat) ≠ 0 ∧ (100 : Nat) ≠ 0 ∧ (0 : Nat) ≠ 0) ∨
       ((0 : Nat) = 0 ∧ (100 : Nat) = 0 ∧ (0 : Nat) = 0)) ∧
    VerseHeap.verse_heap_runtime_config_create 0 100 0
      .global_cache_provider ⟨[]⟩ ⟨[]⟩ = none :=
  ⟨by decide,
   (VerseHeap.runtime_config_fields_all_zero_or_all_nonzero 0 100 0
      .global_cache_provider ⟨[]⟩ ⟨[]⟩).2 (by decide)⟩

/-- C3: a size that is not a positive multiple of `VERSE_HEAP_CHUNK_SIZE` is a
programming-error fault: the call terminates abnormally (`.fault` — not a
recoverable failed result) for every contention trace, so it is never retried
as if it were contention. -/
theorem VerseHeap.allocate_chunks_misaligned_size_faults
    (s : VerseHeap.VerseHeapState) (size : Nat)
    (txn : VerseHeap.pas_physical_memory_transaction)
    (ds : VerseHeap.pas_primordial_page_state)
    (h : ¬ (0 < size ∧ size % VerseHeap.VERSE_HEAP_CHUNK_SIZE = 0)) :
    VerseHeap.verse_heap_runtime_config_allocate_chunks s size txn ds = .fault := by
  rw [VerseHeap.allocate_chunks_eq_attempt]
  unfold VerseHeap.verse_heap_runtime_config_allocate_chunks_attempt
  rw [if_pos]
  rcases Nat.eq_zero_or_pos size with h0 | h0
  · exact Or.inl h0
  · exact Or.inr fun hm => h ⟨h0, hm⟩

/-- C3 witness: size 3 is not a chunk multiple and faults, even under a
contended transaction. -/
theorem VerseHeap.allocate_chunks_misaligned_size_faults_instance :
    ¬ (0 < 3 ∧ 3 % VerseHeap.VERSE_HEAP_CHUNK_SIZE = 0) ∧
    VerseHeap.verse_heap_runtime_config_allocate_chunks
      VerseHeap.scenarioCagedState 3 ⟨[true, false]⟩ .zeroed = .fault :=
  ⟨by decide,
   VerseHeap.allocate_chunks_misaligned_size_faults
     VerseHeap.scenarioCagedState 3 ⟨[true, false]⟩ .zeroed (by decide)⟩

/-- C6: when a completed allocation reports failure, the state is returned
unchanged: nothing was registered in the config's object sets and no cache
extent was marked live — the failed result is the only observable effect. -/
theorem VerseHeap.allocate_chunks_failure_no_partial_registration
    (s : VerseHeap.VerseHeapState) (size : Nat)
    (txn : VerseHeap.pas_physical_memory_transaction)
    (ds : VerseHeap.pas_primordial_page_state)
    (r : VerseHeap.pas_allocation_result) (s' : VerseHeap.VerseHeapState)
    (h : VerseHeap.verse_heap_runtime_config_allocate_chunks s size txn ds = .done r s')
    (hfail : r.ok = false) :
    s'.config.object_sets = s.config.object_sets ∧ s' = s := by
  rw [VerseHeap.allocate_chunks_eq_attempt] at h
  unfold VerseHeap.verse_heap_runtime_config_allocate_chunks_attempt at h
  split at h
  · exact VerseHeap.AllocOutcome.noConfusion h
  · split at h
    · split at h
      · split at h
        · injection h with h1 h2
          rw [← h1] at hfail
          simp at hfail
        · injection h with h1 h2
          rw [← h2]
          exact ⟨rfl, rfl⟩
      · split at h
        · injection h with h1 h2
          rw [← h1] at hfail
          simp at hfail
        · injection h with h1 h2
          rw [← h2]
          exact ⟨rfl, rfl⟩
    · split at h
      · injection h with h1 h2
        rw [← h1] at hfail
        simp at hfail
      · injection h with h1 h2
        rw [← h2]
        exact ⟨rfl, rfl⟩

/-- C7: on a caged heap whose reserved span has no fit for a (valid,
reserve-commit-served) requested size — in particular when the span is fully
committed — `allocate_chunks` fails with resource exhaustion: the failed result
is returned and the state, including the global cache, is completely untouched
(no fallback to the global cache, and the reservation is not grown). -/
theorem VerseHeap.caged_reserve_exhaustion_fails_hard
    (s : VerseHeap.VerseHeapState) (size : Nat)
    (txn : VerseHeap.pas_physical_memory_transaction)
    (ds : VerseHeap.pas_primordial_page_state)
    (hb : s.config.heap_base ≠ 0)
    (h0 : 0 < size) (hm : size % VerseHeap.VERSE_HEAP_CHUNK_SIZE = 0)
    (hle : size ≤ VerseHeap.VERSE_HEAP_RESERVE_COMMIT_MAX_SIZE)
    (hnofit : VerseHeap.findBestFit size s.config.small_cache.free_ranges = none) :
    VerseHeap.verse_heap_runtime_config_allocate_chunks s size txn ds =
      .done VerseHeap.failedAllocation s ∧
    VerseHeap.resource_exhausted s size := by
  have hpre : ¬ (size = 0 ∨ ¬ (size % VerseHeap.VERSE_HEAP_CHUNK_SIZE = 0)) := by
    push_neg
    exact ⟨by omega, hm⟩
  have htry : s.config.small_cache.try_allocate s.os size = none :=
    (VerseHeap.small_try_allocate_eq_none_iff _ _ _).mpr (Or.inl hnofit)
  constructor
  · rw [VerseHeap.allocate_chunks_eq_attempt]
    unfold VerseHeap.verse_heap_runtime_config_allocate_chunks_attempt
    rw [if_neg hpre, if_pos hb, if_pos hle, htry]
  · exact Or.inl ⟨hb, hle, Or.inl hnofit⟩

/-- C7 witness: the spec's Scenario B run concretely — on the caged heap with a
reserved span of four chunks, four single-chunk allocations succeed (the step
counter reaches 4 and the span's free ranges are exhausted), and the fifth
single-chunk allocation fails with resource exhaustion, leaving the state
untouched. -/
theorem VerseHeap.caged_reserve_exhaustion_fails_hard_instance :
    VerseHeap.allocChunkStep (VerseHeap.allocChunkStep (VerseHeap.allocChunkStep
      (VerseHeap.allocChunkStep (VerseHeap.scenarioCagedState, 0)))) =
      (VerseHeap.scenarioCagedState4, 4) ∧
    (VerseHeap.verse_heap_runtime_config_allocate_chunks
       VerseHeap.scenarioCagedState4 VerseHeap.VERSE_HEAP_CHUNK_SIZE ⟨[]⟩ .zeroed =
       .done VerseHeap.failedAllocation VerseHeap.scenarioCagedState4 ∧
     VerseHeap.resource_exhausted VerseHeap.scenarioCagedState4
       VerseHeap.VERSE_HEAP_CHUNK_SIZE) :=
  ⟨by decide,
   VerseHeap.caged_reserve_exhaustion_fails_hard
     VerseHeap.scenarioCagedState4 VerseHeap.VERSE_HEAP_CHUNK_SIZE ⟨[]⟩ .zeroed
     (by decide) (by decide) (by decide) (by decide) (by decide)⟩

/-- C4: a completed `allocate_chunks` call reports `ok = false` only under
resource exhaustion (the serving cache has no fit and/or the OS cannot supply
backing memory), and contention never surfaces: for every contention trace the
call's outcome equals the uncontended attempt, the retries being internal. -/
theorem VerseHeap.allocate_chunks_failure_only_resource_exhaustion
    (s : VerseHeap.VerseHeapState) (size : Nat)
    (txn : VerseHeap.pas_physical_memory_transaction)
    (ds : VerseHeap.pas_primordial_page_state)
    (r : VerseHeap.pas_allocation_result) (s' : VerseHeap.VerseHeapState)
    (h : VerseHeap.verse_heap_runtime_config_allocate_chunks s size txn ds = .done r s')
    (hfail : r.ok = false) :
    VerseHeap.resource_exhausted s size ∧
    VerseHeap.verse_heap_runtime_config_allocate_chunks s size txn ds =
      VerseHeap.verse_heap_runtime_config_allocate_chunks_attempt s size ds := by
  refine ⟨?_, VerseHeap.allocate_chunks_eq_attempt s size txn ds⟩
  rw [VerseHeap.allocate_chunks_eq_attempt] at h
  unfold VerseHeap.verse_heap_runtime_config_allocate_chunks_attempt at h
  split at h
  · exact VerseHeap.AllocOutcome.noConfusion h
  · split at h
    · rename_i hb
      split at h
      · rename_i hle
        split at h
        · injection h with h1 h2
          rw [← h1] at hfail
          simp at hfail
        · rename_i htry
          exact Or.inl ⟨hb, hle,
            (VerseHeap.small_try_allocate_eq_none_iff _ _ _).mp htry⟩
      · rename_i hle
        split at h
        · injection h with h1 h2
          rw [← h1] at hfail
          simp at hfail
        · rename_i htry
          have hl := (VerseHeap.large_try_allocate_eq_none_iff _ _ _).mp htry
          exact Or.inr (Or.inl ⟨hb, by omega, hl.1, hl.2⟩)
    · rename_i hb
      have hb0 : s.config.heap_base = 0 := by omega
      split at h
      · injection h with h1 h2
        rw [← h1] at hfail
        simp at hfail
      · rename_i htry
        have hl := (VerseHeap.large_try_allocate_eq_none_iff _ _ _).mp htry
        exact Or.inr (Or.inr ⟨hb0, hl.1, hl.2⟩)

/-- C4 witness: a failed allocation on the exhausted caged heap, attempted
through a transaction that hits contention once, is resource exhaustion and
coincides with the uncontended attempt. -/
theorem VerseHeap.allocate_chunks_failure_only_resource_exhaustion_instance :
    VerseHeap.resource_exhausted VerseHeap.scenarioCagedState4
      VerseHeap.VERSE_HEAP_CHUNK_SIZE ∧
    VerseHeap.verse_heap_runtime_config_allocate_chunks
      VerseHeap.scenarioCagedState4 VerseHeap.VERSE_HEAP_CHUNK_SIZE
      ⟨[true, false]⟩ .zeroed =
    VerseHeap.verse_heap_runtime_config_allocate_chunks_attempt
      VerseHeap.scenarioCagedState4 VerseHeap.VERSE_HEAP_CHUNK_SIZE .zeroed :=
  VerseHeap.allocate_chunks_failure_only_resource_exhaustion
    VerseHeap.scenarioCagedState4 VerseHeap.VERSE_HEAP_CHUNK_SIZE
    ⟨[true, false]⟩ .zeroed VerseHeap.failedAllocation VerseHeap.scenarioCagedState4
    (by decide) (by decide)

/-- C6 witness: the failing fifth allocation of Scenario B leaves the object
sets and the whole state of the exhausted caged heap unchanged. -/
theorem VerseHeap.allocate_chunks_failure_no_partial_registration_instance :
    VerseHeap.scenarioCagedState4.config.object_sets =
      VerseHeap.scenarioCagedState4.config.object_sets ∧
    VerseHeap.scenarioCagedState4 = VerseHeap.scenarioCagedState4 :=
  VerseHeap.allocate_chunks_failure_no_partial_registration
    VerseHeap.scenarioCagedState4 VerseHeap.VERSE_HEAP_CHUNK_SIZE ⟨[]⟩ .zeroed
    VerseHeap.failedAllocation VerseHeap.scenarioCagedState4 (by decide) (by decide)

/-- C5: every successful allocation returned by the chunk-allocation entry
point has an address and a size that are exact multiples of the chunk
granularity, which is a fixed power of two — provided every free extent held by
the caches is itself chunk-aligned. -/
theorem VerseHeap.allocate_chunks_success_chunk_aligned
    (s : VerseHeap.VerseHeapState) (size : Nat)
    (txn : VerseHeap.pas_physical_memory_transaction)
    (ds : VerseHeap.pas_primordial_page_state)
    (r : VerseHeap.pas_allocation_result) (s' : VerseHeap.VerseHeapState)
    (hwf : VerseHeap.state_aligned s = true)
    (h : VerseHeap.verse_heap_runtime_config_allocate_chunks s size txn ds = .done r s')
    (hok : r.ok = true) :
    r.address % VerseHeap.VERSE_HEAP_CHUNK_SIZE = 0 ∧
    r.size % VerseHeap.VERSE_HEAP_CHUNK_SIZE = 0 ∧
    ∃ k, VerseHeap.VERSE_HEAP_CHUNK_SIZE = 2 ^ k := by
  simp only [VerseHeap.state_aligned, Bool.and_eq_true] at hwf
  obtain ⟨⟨hw1, hw2⟩, hw3⟩ := hwf
  rw [VerseHeap.allocate_chunks_eq_attempt] at h
  unfold VerseHeap.verse_heap_runtime_config_allocate_chunks_attempt at h
  split at h
  · exact VerseHeap.AllocOutcome.noConfusion h
  · rename_i hpre
    push_neg at hpre
    obtain ⟨hs0, hsm⟩ := hpre
    split at h
    · split at h
      · split at h
        · rename_i e sc os2 htry
          obtain ⟨rr, hrr, herr⟩ := VerseHeap.small_try_allocate_some_shape htry
          have hmem := VerseHeap.findBestFit_mem hrr
          have hal := VerseHeap.extent_aligned_split (List.all_eq_true.mp hw1 rr hmem)
          injection h with h1 h2
          subst herr
          rw [← h1]
          exact ⟨hal.1, hsm, ⟨VerseHeap.VERSE_HEAP_CHUNK_SIZE_LOG2, rfl⟩⟩
        · injection h with h1 h2
          rw [← h1] at hok
          simp [VerseHeap.failedAllocation] at hok
      · split at h
        · rename_i e lc os2 htry
          have hal := VerseHeap.large_try_allocate_some_addr hw2 hsm htry
          injection h with h1 h2
          rw [← h1]
          exact ⟨hal.1, hal.2, ⟨VerseHeap.VERSE_HEAP_CHUNK_SIZE_LOG2, rfl⟩⟩
        · injection h with h1 h2
          rw [← h1] at hok
          simp [VerseHeap.failedAllocation] at hok
    · split at h
      · rename_i e gc os2 htry
        have hal := VerseHeap.large_try_allocate_some_addr hw3 hsm htry
        injection h with h1 h2
        rw [← h1]
        exact ⟨hal.1, hal.2, ⟨VerseHeap.VERSE_HEAP_CHUNK_SIZE_LOG2, rfl⟩⟩
      · injection h with h1 h2
        rw [← h1] at hok
        simp [VerseHeap.failedAllocation] at hok

/-- C5 witness: the first Scenario B allocation succeeds and returns the
chunk-aligned extent at address `VERSE_HEAP_CHUNK_SIZE` of size
`VERSE_HEAP_CHUNK_SIZE`. -/
theorem VerseHeap.allocate_chunks_success_chunk_aligned_instance :
    (⟨true, VerseHeap.VERSE_HEAP_CHUNK_SIZE, VerseHeap.VERSE_HEAP_CHUNK_SIZE⟩ :
        VerseHeap.pas_allocation_result).address %
      VerseHeap.VERSE_HEAP_CHUNK_SIZE = 0 ∧
    (⟨true, VerseHeap.VERSE_HEAP_CHUNK_SIZE, VerseHeap.VERSE_HEAP_CHUNK_SIZE⟩ :
        VerseHeap.pas_allocation_result).size %
      VerseHeap.VERSE_HEAP_CHUNK_SIZE = 0 ∧
    ∃ k, VerseHeap.VERSE_HEAP_CHUNK_SIZE = 2 ^ k :=
  VerseHeap.allocate_chunks_success_chunk_aligned
    VerseHeap.scenarioCagedState VerseHeap.VERSE_HEAP_CHUNK_SIZE ⟨[]⟩ .zeroed
    ⟨true, VerseHeap.VERSE_HEAP_CHUNK_SIZE, VerseHeap.VERSE_HEAP_CHUNK_SIZE⟩
    VerseHeap.scenarioCagedState1 (by decide) (by decide) (by decide)

/-- C1: `allocate_chunks` dispatches on `heap_base`.  For a caged config
(`heap_base ≠ 0`) the request is served by the heap's own caches — the
reserve-commit cache for the sizes that path serves, the heap's own sharing
cache beyond them — and the process-wide global cache is never touched; for a
global config (`heap_base = 0`) the request is delegated to the process-wide
cache and the config's private caches are never touched.  Success of the call
coincides exactly with success of the selected cache. -/
theorem VerseHeap.allocate_chunks_dispatches_on_heap_base
    (s : VerseHeap.VerseHeapState) (size : Nat)
    (txn : VerseHeap.pas_physical_memory_transaction)
    (ds : VerseHeap.pas_primordial_page_state)
    (h0 : 0 < size) (hm : size % VerseHeap.VERSE_HEAP_CHUNK_SIZE = 0) :
    (s.config.heap_base ≠ 0 →
      (∀ r s',
        VerseHeap.verse_heap_runtime_config_allocate_chunks s size txn ds = .done r s' →
        s'.global_cache = s.global_cache) ∧
      (size ≤ VerseHeap.VERSE_HEAP_RESERVE_COMMIT_MAX_SIZE →
        ((∃ r s',
           VerseHeap.verse_heap_runtime_config_allocate_chunks s size txn ds = .done r s' ∧
           r.ok = true) ↔
          (s.config.small_cache.try_allocate s.os size).isSome = true) ∧
        (∀ r s',
          VerseHeap.verse_heap_runtime_config_allocate_chunks s size txn ds = .done r s' →
          s'.config.large_cache = s.config.large_cache)) ∧
      (VerseHeap.VERSE_HEAP_RESERVE_COMMIT_MAX_SIZE < size →
        ((∃ r s',
           VerseHeap.verse_heap_runtime_config_allocate_chunks s size txn ds = .done r s' ∧
           r.ok = true) ↔
          (s.config.large_cache.try_allocate s.os size).isSome = true) ∧
        (∀ r s',
          VerseHeap.verse_heap_runtime_config_allocate_chunks s size txn ds = .done r s' →
          s'.config.small_cache = s.config.small_cache))) ∧
    (s.config.heap_base = 0 →
      ((∃ r s',
         VerseHeap.verse_heap_runtime_config_allocate_chunks s size txn ds = .done r s' ∧
         r.ok = true) ↔
        (s.global_cache.try_allocate s.os size).isSome = true) ∧
      (∀ r s',
        VerseHeap.verse_heap_runtime_config_allocate_chunks s size txn ds = .done r s' →
        s'.config.small_cache = s.config.small_cache ∧
        s'.config.large_cache = s.config.large_cache)) := by
  have hpre : ¬ (size = 0 ∨ ¬ (size % VerseHeap.VERSE_HEAP_CHUNK_SIZE = 0)) := by
    push_neg
    exact ⟨by omega, hm⟩
  simp only [VerseHeap.allocate_chunks_eq_attempt]
  constructor
  · intro hb
    refine ⟨?_, fun hle => ⟨?_, ?_⟩, fun hlt => ⟨?_, ?_⟩⟩
    · intro r s' h
      unfold VerseHeap.verse_heap_runtime_config_allocate_chunks_attempt at h
      rw [if_neg hpre, if_pos hb] at h
      by_cases hle : size ≤ VerseHeap.VERSE_HEAP_RESERVE_COMMIT_MAX_SIZE
      · rw [if_pos hle] at h
        split at h
        · injection h with h1 h2
          rw [← h2]
        · injection h with h1 h2
          rw [← h2]
      · rw [if_neg hle] at h
        split at h
        · injection h with h1 h2
          rw [← h2]
        · injection h with h1 h2
          rw [← h2]
    · constructor
      · rintro ⟨r, s', h, hok⟩
        unfold VerseHeap.verse_heap_runtime_config_allocate_chunks_attempt at h
        rw [if_neg hpre, if_pos hb, if_pos hle] at h
        split at h
        · rename_i e sc os2 htry
          simp [htry]
        · injection h with h1 h2
          rw [← h1] at hok
          simp [VerseHeap.failedAllocation] at hok
      · intro hsome
        obtain ⟨⟨e, sc, os2⟩, htry⟩ := Option.isSome_iff_exists.mp hsome
        refine ⟨⟨true, e.address, e.size⟩,
          { s with
            config := { s.config with
                        small_cache := sc,
                        object_sets := s.config.object_sets.insert e },
            os := os2 }, ?_, rfl⟩
        unfold VerseHeap.verse_heap_runtime_config_allocate_chunks_attempt
        rw [if_neg hpre, if_pos hb, if_pos hle, htry]
    · intro r s' h
      unfold VerseHeap.verse_heap_runtime_config_allocate_chunks_attempt at h
      rw [if_neg hpre, if_pos hb, if_pos hle] at h
      split at h
      · injection h with h1 h2
        rw [← h2]
      · injection h with h1 h2
        rw [← h2]
    · have hnle : ¬ size ≤ VerseHeap.VERSE_HEAP_RESERVE_COMMIT_MAX_SIZE := by omega
      constructor
      · rintro ⟨r, s', h, hok⟩
        unfold VerseHeap.verse_heap_runtime_config_allocate_chunks_attempt at h
        rw [if_neg hpre, if_pos hb, if_neg hnle] at h
        split at h
        · rename_i e lc os2 htry
          simp [htry]
        · injection h with h1 h2
          rw [← h1] at hok
          simp [VerseHeap.failedAllocation] at hok
      · intro hsome
        obtain ⟨⟨e, lc, os2⟩, htry⟩ := Option.isSome_iff_exists.mp hsome
        refine ⟨⟨true, e.address, e.size⟩,
          { s with
            config := { s.config with
                        large_cache := lc,
                        object_sets := s.config.object_sets.insert e },
            os := os2 }, ?_, rfl⟩
        unfold VerseHeap.verse_heap_runtime_config_allocate_chunks_attempt
        rw [if_neg hpre, if_pos hb, if_neg hnle, htry]
    · have hnle : ¬ size ≤ VerseHeap.VERSE_HEAP_RESERVE_COMMIT_MAX_SIZE := by omega
      intro r s' h
      unfold VerseHeap.verse_heap_runtime_config_allocate_chunks_attempt at h
      rw [if_neg hpre, if_pos hb, if_neg hnle] at h
      split at h
      · injection h with h1 h2
        rw [← h2]
      · injection h with h1 h2
        rw [← h2]
  · intro hb0
    have hbne : ¬ (s.config.heap_base ≠ 0) := by omega
    constructor
    · constructor
      · rintro ⟨r, s', h, hok⟩
        unfold VerseHeap.verse_heap_runtime_config_allocate_chunks_attempt at h
        rw [if_neg hpre, if_neg hbne] at h
        split at h
        · rename_i e gc os2 htry
          simp [htry]
        · injection h with h1 h2
          rw [← h1] at hok
          simp [VerseHeap.failedAllocation] at hok
      · intro hsome
        obtain ⟨⟨e, gc, os2⟩, htry⟩ := Option.isSome_iff_exists.mp hsome
        refine ⟨⟨true, e.address, e.size⟩,
          { s with
            global_cache := gc,
            config := { s.config with object_sets := s.config.object_sets.insert e },
            os := os2 }, ?_, rfl⟩
        unfold VerseHeap.verse_heap_runtime_config_allocate_chunks_attempt
        rw [if_neg hpre, if_neg hbne, htry]
    · intro r s' h
      unfold VerseHeap.verse_heap_runtime_config_allocate_chunks_attempt at h
      rw [if_neg hpre, if_neg hbne] at h
      split at h
      · injection h with h1 h2
        rw [← h2]
        exact ⟨rfl, rfl⟩
      · injection h with h1 h2
        rw [← h2]
        exact ⟨rfl, rfl⟩

/-- C1 witness: the first Scenario B allocation on the caged heap leaves both
the process-wide global cache and the heap's private large cache exactly as
they were, the request having been served by the reserve-commit cache. -/
theorem VerseHeap.allocate_chunks_dispatches_on_heap_base_instance :
    VerseHeap.scenarioCagedState1.global_cache =
      VerseHeap.scenarioCagedState.global_cache ∧
    VerseHeap.scenarioCagedState1.config.large_cache =
      VerseHeap.scenarioCagedState.config.large_cache :=
  have hd := VerseHeap.allocate_chunks_dispatches_on_heap_base
    VerseHeap.scenarioCagedState VerseHeap.VERSE_HEAP_CHUNK_SIZE ⟨[]⟩ .zeroed
    (by decide) (by decide)
  ⟨(hd.1 (by decide)).1
     ⟨true, VerseHeap.VERSE_HEAP_CHUNK_SIZE, VerseHeap.VERSE_HEAP_CHUNK_SIZE⟩
     VerseHeap.scenarioCagedState1 (by decide),
   ((hd.1 (by decide)).2.1 (by decide)).2
     ⟨true, VerseHeap.VERSE_HEAP_CHUNK_SIZE, VerseHeap.VERSE_HEAP_CHUNK_SIZE⟩
     VerseHeap.scenarioCagedState1 (by decide)⟩

/-- C10: for every argument list — including ones carrying -nostdlib,
-nostartfiles or -r — the FreeBSD link command for a non-shared output places a
crt1 variant (crt1.o, Scrt1.o or gcrt1.o), crti.o and a crtbegin variant before
the linker inputs, and the matching crtend variant plus crtn.o after them: the
startfile guards are short-circuited to true in the source, so the blocks are
emitted unconditionally. -/
theorem FreeBSDDriver.linker_always_emits_startfiles
    (tc : FreeBSDDriver.ToolChainInfo) (args : FreeBSDDriver.LinkerArgs)
    (output : Option String) (inputs : List String)
    (ext : FreeBSDDriver.ExternalArgs)
    (h : args.shared = false) :
    (FreeBSDDriver.crt1Choice args (FreeBSDDriver.computeIsPIE tc args) = "gcrt1.o" ∨
     FreeBSDDriver.crt1Choice args (FreeBSDDriver.computeIsPIE tc args) = "Scrt1.o" ∨
     FreeBSDDriver.crt1Choice args (FreeBSDDriver.computeIsPIE tc args) = "crt1.o") ∧
    (FreeBSDDriver.crtbeginFile args (FreeBSDDriver.computeIsPIE tc args) = "crtbeginT.o" ∨
     FreeBSDDriver.crtbeginFile args (FreeBSDDriver.computeIsPIE tc args) = "crtbeginS.o" ∨
     FreeBSDDriver.crtbeginFile args (FreeBSDDriver.computeIsPIE tc args) = "crtbegin.o") ∧
    (FreeBSDDriver.crtendFile args (FreeBSDDriver.computeIsPIE tc args) = "crtendS.o" ∨
     FreeBSDDriver.crtendFile args (FreeBSDDriver.computeIsPIE tc args) = "crtend.o") ∧
    FreeBSDDriver.linkerConstructJob tc args output inputs ext =
      FreeBSDDriver.preArgs tc args (FreeBSDDriver.computeIsPIE tc args) output ++
      [FreeBSDDriver.getLegacyFilePath tc
         (FreeBSDDriver.crt1Choice args (FreeBSDDriver.computeIsPIE tc args)),
       FreeBSDDriver.getLegacyFilePath tc "crti.o",
       FreeBSDDriver.getLegacyFilePath tc
         (FreeBSDDriver.crtbeginFile args (FreeBSDDriver.computeIsPIE tc args))] ++
      FreeBSDDriver.midArgs tc args ext ++
      inputs ++
      FreeBSDDriver.libArgs tc args ext ++
      [FreeBSDDriver.getLegacyFilePath tc
         (FreeBSDDriver.crtendFile args (FreeBSDDriver.computeIsPIE tc args)),
       FreeBSDDriver.getLegacyFilePath tc "crtn.o"] ++
      ext.profileRTArgs := by
  have hcrt1 : FreeBSDDriver.crt1File args (FreeBSDDriver.computeIsPIE tc args) =
      some (FreeBSDDriver.crt1Choice args (FreeBSDDriver.computeIsPIE tc args)) := by
    unfold FreeBSDDriver.crt1File FreeBSDDriver.crt1Choice
    by_cases hpg : args.pg <;>
      by_cases hp : FreeBSDDriver.computeIsPIE tc args <;>
        simp [h, hpg, hp]
  have hstart : FreeBSDDriver.startfileArgs tc args (FreeBSDDriver.computeIsPIE tc args) =
      [FreeBSDDriver.getLegacyFilePath tc
         (FreeBSDDriver.crt1Choice args (FreeBSDDriver.computeIsPIE tc args)),
       FreeBSDDriver.getLegacyFilePath tc "crti.o",
       FreeBSDDriver.getLegacyFilePath tc
         (FreeBSDDriver.crtbeginFile args (FreeBSDDriver.computeIsPIE tc args))] := by
    simp [FreeBSDDriver.startfileArgs, hcrt1]
  have hend : FreeBSDDriver.endfileArgs tc args (FreeBSDDriver.computeIsPIE tc args) =
      [FreeBSDDriver.getLegacyFilePath tc
         (FreeBSDDriver.crtendFile args (FreeBSDDriver.computeIsPIE tc args)),
       FreeBSDDriver.getLegacyFilePath tc "crtn.o"] := by
    simp [FreeBSDDriver.endfileArgs]
  refine ⟨?_, ?_, ?_, ?_⟩
  · unfold FreeBSDDriver.crt1Choice
    by_cases hpg : args.pg <;>
      by_cases hp : FreeBSDDriver.computeIsPIE tc args <;>
        simp [hpg, hp]
  · unfold FreeBSDDriver.crtbeginFile
    by_cases hs : args.static <;>
      by_cases hp : FreeBSDDriver.computeIsPIE tc args <;>
        simp [h, hs, hp]
  · unfold FreeBSDDriver.crtendFile
    by_cases hp : FreeBSDDriver.computeIsPIE tc args <;>
      simp [h, hp]
  · unfold FreeBSDDriver.linkerConstructJob
    rw [hstart, hend]

/-- C10 witness: with -nostdlib, -nostartfiles and -r all present and -shared
absent, the concrete FilBSD link line still carries the startup objects around
the input, exactly as the theorem places them. -/
theorem FreeBSDDriver.linker_always_emits_startfiles_instance :
    FreeBSDDriver.linkerConstructJob FreeBSDDriver.tcSample FreeBSDDriver.argsSample
      (some "a.out") ["main.o"] FreeBSDDriver.extSample =
      FreeBSDDriver.preArgs FreeBSDDriver.tcSample FreeBSDDriver.argsSample
        (FreeBSDDriver.computeIsPIE FreeBSDDriver.tcSample FreeBSDDriver.argsSample)
        (some "a.out") ++
      [FreeBSDDriver.getLegacyFilePath FreeBSDDriver.tcSample
         (FreeBSDDriver.crt1Choice FreeBSDDriver.argsSample
           (FreeBSDDriver.computeIsPIE FreeBSDDriver.tcSample FreeBSDDriver.argsSample)),
       FreeBSDDriver.getLegacyFilePath FreeBSDDriver.tcSample "crti.o",
       FreeBSDDriver.getLegacyFilePath FreeBSDDriver.tcSample
         (FreeBSDDriver.crtbeginFile FreeBSDDriver.argsSample
           (FreeBSDDriver.computeIsPIE FreeBSDDriver.tcSample FreeBSDDriver.argsSample))] ++
      FreeBSDDriver.midArgs FreeBSDDriver.tcSample FreeBSDDriver.argsSample
        FreeBSDDriver.extSample ++
      ["main.o"] ++
      FreeBSDDriver.libArgs FreeBSDDriver.tcSample FreeBSDDriver.argsSample
        FreeBSDDriver.extSample ++
      [FreeBSDDriver.getLegacyFilePath FreeBSDDriver.tcSample
         (FreeBSDDriver.crtendFile FreeBSDDriver.argsSample
           (FreeBSDDriver.computeIsPIE FreeBSDDriver.tcSample FreeBSDDriver.argsSample)),
       FreeBSDDriver.getLegacyFilePath FreeBSDDriver.tcSample "crtn.o"] ++
      FreeBSDDriver.extSample.profileRTArgs :=
  (FreeBSDDriver.linker_always_emits_startfiles FreeBSDDriver.tcSample
    FreeBSDDriver.argsSample (some "a.out") ["main.o"] FreeBSDDriver.extSample
    rfl).2.2.2
